import Mathlib

/-!
Verification of the daily-dots year-progress renderer.

The embedding models the three rendering surfaces of the repository:
the interactive `DailyDots` component, the dynamic image route and the
configurable image route.  Dates are modelled in UTC with millisecond
precision; all pixel arithmetic is carried out in exact rational
arithmetic (the source computes with JS doubles, whose exact-value
formulas are the ones embedded here).
-/

namespace DailyDots

/-! ## Temporal model (JS `Date` / date-fns embedding) -/

/-- Milliseconds per day, the unit `differenceInDays` divides by. -/
def msPerDay : ℤ := 86400000

/-- Gregorian leap-year rule (proleptic, as implemented by JS `Date`). -/
def isLeapYear (y : ℤ) : Bool := (y % 4 == 0 && y % 100 != 0) || y % 400 == 0

/-- Number of calendar days in year `y`. -/
def daysInYear (y : ℤ) : ℕ := if isLeapYear y then 366 else 365

/-- A calendar instant: year, 0-based day of year, milliseconds within the day.
A UTC model of the JS `Date` values flowing through the source. -/
structure JSDate where
  year : ℤ
  dayOfYear : ℕ
  msOfDay : ℕ
deriving DecidableEq, Repr

/-- A `JSDate` denotes a real instant: its day index lies inside its year and
its time of day is below 24h. -/
def JSDate.valid (d : JSDate) : Prop :=
  d.dayOfYear < daysInYear d.year ∧ d.msOfDay < 86400000

instance (d : JSDate) : Decidable d.valid := by
  unfold JSDate.valid; infer_instance

/-- Days from 0000-01-01 to the first day of year `y` (proleptic Gregorian),
used to linearise dates onto a millisecond timeline. -/
def daysBeforeYear (y : ℤ) : ℤ :=
  365 * y + (y + 3).fdiv 4 - (y + 99).fdiv 100 + (y + 399).fdiv 400

/-- Millisecond timestamp of an instant (epoch at 0000-01-01T00:00Z). -/
def timestamp (d : JSDate) : ℤ :=
  (daysBeforeYear d.year + d.dayOfYear) * msPerDay + d.msOfDay

/-- date-fns `startOfYear`: first instant of the instant's year. -/
def startOfYear (d : JSDate) : JSDate := ⟨d.year, 0, 0⟩

/-- date-fns `endOfYear`: Dec 31, 23:59:59.999 of the instant's year. -/
def endOfYear (d : JSDate) : JSDate := ⟨d.year, daysInYear d.year - 1, 86399999⟩

/-- date-fns `differenceInDays`: whole-day difference, truncated toward zero
(`Int.tdiv` truncates toward zero, matching the JS semantics). -/
def differenceInDays (a b : JSDate) : ℤ := Int.tdiv (timestamp a - timestamp b) msPerDay

/-- JS `getDay`: weekday with Sunday = 0 … Saturday = 6.
0000-01-01 (proleptic Gregorian) is a Saturday, hence the `+ 6`. -/
def getDay (d : JSDate) : ℕ := ((daysBeforeYear d.year + d.dayOfYear + 6) % 7).toNat

/-- `totalDays = differenceInDays(endOfYear(now), startOfYear(now)) + 1`. -/
def totalDays (d : JSDate) : ℤ := differenceInDays (endOfYear d) (startOfYear d) + 1

/-- `daysPassed = differenceInDays(now, startOfYear(now))`. -/
def daysPassed (d : JSDate) : ℤ := differenceInDays d (startOfYear d)

/-- The weekday remap `day === 0 ? 6 : day - 1` (Sunday-origin to Monday-origin). -/
def remapWeekday (day : ℕ) : ℕ := if day = 0 then 6 else day - 1

/-- `firstDayOfWeek` as computed by all three surfaces. -/
def firstDayOfWeek (d : JSDate) : ℕ := remapWeekday (getDay (startOfYear d))

/-! ### Basic temporal lemmas -/

lemma daysInYear_pos (y : ℤ) : 1 ≤ daysInYear y := by
  unfold daysInYear; split <;> norm_num

/-- T-division of `n * msPerDay + r` by `msPerDay` recovers `n` when `r < msPerDay`. -/
lemma div_msPerDay_exact (n r : ℕ) (hr : r < 86400000) :
    Int.tdiv ((n : ℤ) * 86400000 + r) 86400000 = n := by
  have h : ((n : ℤ) * 86400000 + r) = ((n * 86400000 + r : ℕ) : ℤ) := by push_cast; ring
  rw [h]
  have h2 : (86400000 : ℤ) = ((86400000 : ℕ) : ℤ) := by norm_num
  rw [h2, ← Int.ofNat_tdiv]
  have h3 : (n * 86400000 + r) / 86400000 = n := by omega
  rw [h3]

lemma totalDays_eq (d : JSDate) : totalDays d = (daysInYear d.year : ℤ) := by
  have h1 : 1 ≤ daysInYear d.year := daysInYear_pos d.year
  unfold totalDays differenceInDays timestamp endOfYear startOfYear msPerDay
  simp only
  have h2 : (daysBeforeYear d.year + ((daysInYear d.year - 1 : ℕ) : ℤ)) * 86400000 +
      ((86399999 : ℕ) : ℤ) - ((daysBeforeYear d.year + ((0 : ℕ) : ℤ)) * 86400000 + ((0 : ℕ) : ℤ)) =
      ((daysInYear d.year - 1 : ℕ) : ℤ) * 86400000 + ((86399999 : ℕ) : ℤ) := by
    push_cast; ring
  rw [h2, div_msPerDay_exact _ _ (by norm_num)]
  omega

lemma daysPassed_eq (d : JSDate) (hd : d.valid) : daysPassed d = (d.dayOfYear : ℤ) := by
  unfold daysPassed differenceInDays timestamp startOfYear msPerDay
  simp only
  have h2 : (daysBeforeYear d.year + (d.dayOfYear : ℤ)) * 86400000 + (d.msOfDay : ℤ) -
      ((daysBeforeYear d.year + ((0 : ℕ) : ℤ)) * 86400000 + ((0 : ℕ) : ℤ)) =
      (d.dayOfYear : ℤ) * 86400000 + (d.msOfDay : ℤ) := by push_cast; ring
  rw [h2, div_msPerDay_exact _ _ hd.2]

/-! ## Grid layout and dot classification (the `dots` array of the image route) -/

/-- The `type` field of a generated dot. -/
inductive DotType where
  | empty
  | gap
  | cross
  | today
  | dot
deriving DecidableEq, Repr

/-- One entry of the `dots` array: `{ type, row, col }`. -/
structure Dot where
  type : DotType
  row : ℕ
  col : ℕ
deriving DecidableEq, Repr

/-- `isPassed ? "cross" : isToday ? "today" : "dot"` for a day index,
with `daysPassed` kept as the (possibly negative) integer the source computes. -/
def classify (dayOffset : ℕ) (dp : ℤ) : DotType :=
  if (dayOffset : ℤ) < dp then .cross else if (dayOffset : ℤ) = dp then .today else .dot

/-- Row and column of structural offset `w + i`:
`row = ⌊(w+i)/14⌋`, `posInRow = (w+i) % 14`,
`col = posInRow` if `posInRow < 7` else `posInRow + 1`. -/
def dayPos (w i : ℕ) : ℕ × ℕ :=
  let o := w + i
  let p := o % 14
  (o / 14, if p < 7 then p else p + 1)

/-- The leading `empty` placeholders for the `w` slots before day 0. -/
def emptyCells (w : ℕ) : List Dot :=
  (List.range w).map fun i =>
    ⟨.empty, (dayPos 0 i).1, (dayPos 0 i).2⟩

/-- The `gap` spacer pushed at row 0, col 7 when `firstDayOfWeek >= 7`. -/
def gapSpacer (w : ℕ) : List Dot :=
  if 7 ≤ w then [⟨.gap, 0, 7⟩] else []

/-- The main loop over `dayOffset in [0, totalDays)`: an inline `gap` dot when
`posInRow === 7`, then the classified day cell at `dayPos`. -/
def dayCells (t : ℕ) (dp : ℤ) (w : ℕ) : List Dot :=
  (List.range t).flatMap fun i =>
    (if (w + i) % 14 = 7 then [⟨.gap, (dayPos w i).1, 7⟩] else []) ++
      [⟨classify i dp, (dayPos w i).1, (dayPos w i).2⟩]

/-- The full `dots` array generated by the dynamic image route. -/
def generateDots (t : ℕ) (dp : ℤ) (w : ℕ) : List Dot :=
  emptyCells w ++ gapSpacer w ++ dayCells t dp w

/-! ## Geometry resolver (shared formulas of all three surfaces) -/

/-- The resolved pixel geometry, in exact rationals. -/
structure Geometry where
  cardW : ℚ
  cardH : ℚ
  padding : ℚ
  availableW : ℚ
  availableH : ℚ
  gap : ℚ
  dotSize : ℚ
  cellW : ℚ
  cellH : ℚ
deriving DecidableEq, Repr

/-- The geometry computation of the source (identical in all three surfaces):
card fractions 0.75 / 0.48, padding factor 0.04, 15 columns, gap divisor 4,
dot factor 1.5. -/
def resolveGeometry (w h : ℚ) (rows : ℕ) : Geometry :=
  let cardW := w * 0.75
  let cardH := h * 0.48
  let padding := min cardW cardH * 0.04
  let availableW := cardW - padding * 2
  let availableH := cardH - padding * 2
  let gap := min (availableW / (15 * 4)) (availableH / (rows * 4))
  let dotSize := gap * 1.5
  ⟨cardW, cardH, padding, availableW, availableH, gap, dotSize,
    availableW / 15, availableH / rows⟩

/-! ## Per-surface dot size factors

The interactive component passes `size` props to its icons; the dynamic image
route sets the svg box size; the configurable image route emits radii and
line offsets directly. -/

/-- Interactive component: `<CrossIcon size={dotSize * 1.3} />`. -/
def componentPastSize (dotSize : ℚ) : ℚ := dotSize * 1.3

/-- Interactive component: `<TodayIcon size={dotSize * 1.8} />`. -/
def componentTodaySize (dotSize : ℚ) : ℚ := dotSize * 1.8

/-- Interactive component: `<DotIcon size={dotSize} />`. -/
def componentFutureSize (dotSize : ℚ) : ℚ := dotSize

/-- Dynamic image route: cross svg box `const size = dotSize * 1`. -/
def dynamicPastSize (dotSize : ℚ) : ℚ := dotSize * 1

/-- Dynamic image route: today svg box `const size = dotSize * 1.8`. -/
def dynamicTodaySize (dotSize : ℚ) : ℚ := dotSize * 1.8

/-- Dynamic image route: future dot svg box is `dotSize`. -/
def dynamicFutureSize (dotSize : ℚ) : ℚ := dotSize

/-- Configurable route: cross `const size = dotSize` (line offset 0.4·size,
stroke 0.2·size, i.e. the same cross as a `viewBox 10` box of that size). -/
def configPastSize (dotSize : ℚ) : ℚ := dotSize

/-- Configurable route: today circle `radius = dotSize * 0.9`. -/
def configTodayRadius (dotSize : ℚ) : ℚ := dotSize * 0.9

/-- Configurable route: future circle `radius = dotSize * 0.4`. -/
def configFutureRadius (dotSize : ℚ) : ℚ := dotSize * 0.4

/-! ## Route-level control flow (error handling) -/

/-- The error kinds the specification postulates. -/
inductive RouteError where
  | invalidDateInput
  | invalidCanvasSize
deriving DecidableEq, Repr

/-- What a route call produces: an image response or an error response. -/
inductive RouteResponse where
  | imageResponse (dots : List Dot)
  | errorResponse (e : RouteError)
deriving DecidableEq, Repr

/-- Whether a response is an error response. -/
def RouteResponse.isError : RouteResponse → Bool
  | .errorResponse _ => true
  | .imageResponse _ => false

/-- The dynamic image route's date handling: `new Date(dateStr)` is used
unconditionally (`none` models an unparseable string, i.e. a JS
`Invalid Date`).  The source contains no validity check and no error branch:
with an invalid date every NaN comparison (`i < firstDayOfWeek`,
`firstDayOfWeek >= 7`, `dayOffset < totalDays`) is false, so all three loops
run zero times and an image response with an empty `dots` array is still
returned. -/
def dynamicRouteResponse (date : Option JSDate) : RouteResponse :=
  match date with
  | some d =>
      .imageResponse (generateDots (totalDays d).toNat (daysPassed d) (firstDayOfWeek d))
  | none => .imageResponse []

/-- The routes' canvas-size handling: `resolveGeometry` is invoked on the
parsed `width`/`height` unconditionally; the source contains no positivity
check and no error branch. -/
def routeGeometryResponse (w h : ℚ) (rows : ℕ) : Except RouteError Geometry :=
  .ok (resolveGeometry w h rows)

/-! ## Geometry lemmas -/

lemma resolveGeometry_cardW (w h : ℚ) (rows : ℕ) :
    (resolveGeometry w h rows).cardW = w * 0.75 := rfl

lemma resolveGeometry_cardH (w h : ℚ) (rows : ℕ) :
    (resolveGeometry w h rows).cardH = h * 0.48 := rfl

lemma resolveGeometry_padding (w h : ℚ) (rows : ℕ) :
    (resolveGeometry w h rows).padding =
      min (resolveGeometry w h rows).cardW (resolveGeometry w h rows).cardH * 0.04 := rfl

lemma resolveGeometry_availableW (w h : ℚ) (rows : ℕ) :
    (resolveGeometry w h rows).availableW =
      (resolveGeometry w h rows).cardW - (resolveGeometry w h rows).padding * 2 := rfl

lemma resolveGeometry_availableH (w h : ℚ) (rows : ℕ) :
    (resolveGeometry w h rows).availableH =
      (resolveGeometry w h rows).cardH - (resolveGeometry w h rows).padding * 2 := rfl

lemma resolveGeometry_gap (w h : ℚ) (rows : ℕ) :
    (resolveGeometry w h rows).gap =
      min ((resolveGeometry w h rows).availableW / (15 * 4))
        ((resolveGeometry w h rows).availableH / (rows * 4)) := rfl

lemma resolveGeometry_dotSize (w h : ℚ) (rows : ℕ) :
    (resolveGeometry w h rows).dotSize = (resolveGeometry w h rows).gap * 1.5 := rfl

lemma resolveGeometry_cellW (w h : ℚ) (rows : ℕ) :
    (resolveGeometry w h rows).cellW = (resolveGeometry w h rows).availableW / 15 := rfl

lemma resolveGeometry_cellH (w h : ℚ) (rows : ℕ) :
    (resolveGeometry w h rows).cellH = (resolveGeometry w h rows).availableH / rows := rfl

lemma min_two_mul (a b : ℚ) : min (2 * a) (2 * b) = 2 * min a b := by
  rcases le_total a b with hab | hab
  · rw [min_eq_left (by linarith), min_eq_left hab]
  · rw [min_eq_right (by linarith), min_eq_right hab]

/-! ## Claim theorems -/

/-- C2: for W > 0, H > 0 and rows ≥ 1, the resolved geometry satisfies, in
exact rational arithmetic: cardW = 0.75·W, cardH = 0.48·H,
padding = 0.04·min(cardW, cardH), availableW = cardW − 2·padding,
availableH = cardH − 2·padding, gap = min(availableW/(15·4), availableH/(rows·4)),
dotSize = 1.5·gap, cellW = availableW/15, cellH = availableH/rows. -/
theorem resolveGeometry_exact (w h : ℚ) (rows : ℕ) (hw : 0 < w) (hh : 0 < h)
    (hr : 1 ≤ rows) :
    (resolveGeometry w h rows).cardW = 0.75 * w ∧
    (resolveGeometry w h rows).cardH = 0.48 * h ∧
    (resolveGeometry w h rows).padding =
      0.04 * min (resolveGeometry w h rows).cardW (resolveGeometry w h rows).cardH ∧
    (resolveGeometry w h rows).availableW =
      (resolveGeometry w h rows).cardW - 2 * (resolveGeometry w h rows).padding ∧
    (resolveGeometry w h rows).availableH =
      (resolveGeometry w h rows).cardH - 2 * (resolveGeometry w h rows).padding ∧
    (resolveGeometry w h rows).gap =
      min ((resolveGeometry w h rows).availableW / (15 * 4))
        ((resolveGeometry w h rows).availableH / (rows * 4)) ∧
    (resolveGeometry w h rows).dotSize = 1.5 * (resolveGeometry w h rows).gap ∧
    (resolveGeometry w h rows).cellW = (resolveGeometry w h rows).availableW / 15 ∧
    (resolveGeometry w h rows).cellH = (resolveGeometry w h rows).availableH / rows := by
  refine ⟨?_, ?_, ?_, ?_, ?_, ?_, ?_, ?_, ?_⟩
  · rw [resolveGeometry_cardW]; ring
  · rw [resolveGeometry_cardH]; ring
  · rw [resolveGeometry_padding]; ring
  · rw [resolveGeometry_availableW]; ring
  · rw [resolveGeometry_availableH]; ring
  · rw [resolveGeometry_gap]
  · rw [resolveGeometry_dotSize]; ring
  · rw [resolveGeometry_cellW]
  · rw [resolveGeometry_cellH]

/-- Witness for C2 at the default canvas 390×844 with 27 rows. -/
theorem resolveGeometry_exact_witness :
    (0 : ℚ) < 390 ∧ (0 : ℚ) < 844 ∧ 1 ≤ 27 ∧
    ((resolveGeometry 390 844 27).cardW = 0.75 * 390 ∧
     (resolveGeometry 390 844 27).cardH = 0.48 * 844 ∧
     (resolveGeometry 390 844 27).padding =
       0.04 * min (resolveGeometry 390 844 27).cardW (resolveGeometry 390 844 27).cardH ∧
     (resolveGeometry 390 844 27).availableW =
       (resolveGeometry 390 844 27).cardW - 2 * (resolveGeometry 390 844 27).padding ∧
     (resolveGeometry 390 844 27).availableH =
       (resolveGeometry 390 844 27).cardH - 2 * (resolveGeometry 390 844 27).padding ∧
     (resolveGeometry 390 844 27).gap =
       min ((resolveGeometry 390 844 27).availableW / (15 * 4))
         ((resolveGeometry 390 844 27).availableH / ((27 : ℕ) * 4)) ∧
     (resolveGeometry 390 844 27).dotSize = 1.5 * (resolveGeometry 390 844 27).gap ∧
     (resolveGeometry 390 844 27).cellW = (resolveGeometry 390 844 27).availableW / 15 ∧
     (resolveGeometry 390 844 27).cellH = (resolveGeometry 390 844 27).availableH / (27 : ℕ)) :=
  ⟨by norm_num, by norm_num, by norm_num,
    resolveGeometry_exact 390 844 27 (by norm_num) (by norm_num) (by norm_num)⟩

/-- C7: doubling both canvas dimensions exactly doubles cardW, cardH, padding,
gap, dotSize, cellW and cellH. -/
theorem resolveGeometry_doubling (w h : ℚ) (rows : ℕ) (hw : 0 < w) (hh : 0 < h)
    (hr : 1 ≤ rows) :
    (resolveGeometry (2 * w) (2 * h) rows).cardW = 2 * (resolveGeometry w h rows).cardW ∧
    (resolveGeometry (2 * w) (2 * h) rows).cardH = 2 * (resolveGeometry w h rows).cardH ∧
    (resolveGeometry (2 * w) (2 * h) rows).padding = 2 * (resolveGeometry w h rows).padding ∧
    (resolveGeometry (2 * w) (2 * h) rows).gap = 2 * (resolveGeometry w h rows).gap ∧
    (resolveGeometry (2 * w) (2 * h) rows).dotSize = 2 * (resolveGeometry w h rows).dotSize ∧
    (resolveGeometry (2 * w) (2 * h) rows).cellW = 2 * (resolveGeometry w h rows).cellW ∧
    (resolveGeometry (2 * w) (2 * h) rows).cellH = 2 * (resolveGeometry w h rows).cellH := by
  have e1 : (2 * w) * (0.75 : ℚ) = 2 * (w * 0.75) := by ring
  have e2 : (2 * h) * (0.48 : ℚ) = 2 * (h * 0.48) := by ring
  have hcW : (resolveGeometry (2 * w) (2 * h) rows).cardW =
      2 * (resolveGeometry w h rows).cardW := by
    rw [resolveGeometry_cardW, resolveGeometry_cardW, e1]
  have hcH : (resolveGeometry (2 * w) (2 * h) rows).cardH =
      2 * (resolveGeometry w h rows).cardH := by
    rw [resolveGeometry_cardH, resolveGeometry_cardH, e2]
  have hp : (resolveGeometry (2 * w) (2 * h) rows).padding =
      2 * (resolveGeometry w h rows).padding := by
    rw [resolveGeometry_padding, resolveGeometry_padding, hcW, hcH, min_two_mul]
    ring
  have haW : (resolveGeometry (2 * w) (2 * h) rows).availableW =
      2 * (resolveGeometry w h rows).availableW := by
    rw [resolveGeometry_availableW, resolveGeometry_availableW, hcW, hp]
    ring
  have haH : (resolveGeometry (2 * w) (2 * h) rows).availableH =
      2 * (resolveGeometry w h rows).availableH := by
    rw [resolveGeometry_availableH, resolveGeometry_availableH, hcH, hp]
    ring
  have hg : (resolveGeometry (2 * w) (2 * h) rows).gap =
      2 * (resolveGeometry w h rows).gap := by
    rw [resolveGeometry_gap, resolveGeometry_gap, haW, haH, mul_div_assoc, mul_div_assoc,
      min_two_mul]
  have hd : (resolveGeometry (2 * w) (2 * h) rows).dotSize =
      2 * (resolveGeometry w h rows).dotSize := by
    rw [resolveGeometry_dotSize, resolveGeometry_dotSize, hg]
    ring
  have hcw : (resolveGeometry (2 * w) (2 * h) rows).cellW =
      2 * (resolveGeometry w h rows).cellW := by
    rw [resolveGeometry_cellW, resolveGeometry_cellW, haW, mul_div_assoc]
  have hch : (resolveGeometry (2 * w) (2 * h) rows).cellH =
      2 * (resolveGeometry w h rows).cellH := by
    rw [resolveGeometry_cellH, resolveGeometry_cellH, haH, mul_div_assoc]
  exact ⟨hcW, hcH, hp, hg, hd, hcw, hch⟩

/-- Witness for C7 at the default canvas 390×844 with 27 rows. -/
theorem resolveGeometry_doubling_witness :
    (0 : ℚ) < 390 ∧ (0 : ℚ) < 844 ∧ 1 ≤ 27 ∧
    ((resolveGeometry (2 * 390) (2 * 844) 27).cardW = 2 * (resolveGeometry 390 844 27).cardW ∧
     (resolveGeometry (2 * 390) (2 * 844) 27).cardH = 2 * (resolveGeometry 390 844 27).cardH ∧
     (resolveGeometry (2 * 390) (2 * 844) 27).padding = 2 * (resolveGeometry 390 844 27).padding ∧
     (resolveGeometry (2 * 390) (2 * 844) 27).gap = 2 * (resolveGeometry 390 844 27).gap ∧
     (resolveGeometry (2 * 390) (2 * 844) 27).dotSize = 2 * (resolveGeometry 390 844 27).dotSize ∧
     (resolveGeometry (2 * 390) (2 * 844) 27).cellW = 2 * (resolveGeometry 390 844 27).cellW ∧
     (resolveGeometry (2 * 390) (2 * 844) 27).cellH = 2 * (resolveGeometry 390 844 27).cellH) :=
  ⟨by norm_num, by norm_num, by norm_num,
    resolveGeometry_doubling 390 844 27 (by norm_num) (by norm_num) (by norm_num)⟩

/-- C3 counterexample: the interactive component draws the Past cross with
`size = dotSize * 1.3`, not `1 × dotSize` as both image routes do, so the
three surfaces do not share the Past-cross size factor. -/
theorem componentCross_factor_differs :
    componentPastSize 1 = 1.3 ∧ dynamicPastSize 1 = 1 ∧ configPastSize 1 = 1 ∧
    componentPastSize 1 ≠ dynamicPastSize 1 := by
  refine ⟨?_, ?_, ?_, ?_⟩ <;>
    norm_num [componentPastSize, dynamicPastSize, configPastSize]

/-- C3 (amended): the dynamic and configurable image routes draw the Past
cross at 1× dotSize and the interactive component at 1.3× dotSize; the Future
dot is 1.0× dotSize and the Today dot 1.8× dotSize in all three surfaces (the
configurable route emits radii: 0.9·dotSize for Today, i.e. a 1.8·dotSize
diameter, and 0.4·dotSize for Future, the drawn diameter of a 1.0·dotSize
`viewBox 10` box with radius 4). -/
theorem dotSizeFactors_per_surface (s : ℚ) :
    dynamicPastSize s = s * 1 ∧ configPastSize s = s * 1 ∧
    componentPastSize s = s * 1.3 ∧
    componentTodaySize s = s * 1.8 ∧ dynamicTodaySize s = s * 1.8 ∧
    2 * configTodayRadius s = s * 1.8 ∧
    componentFutureSize s = s * 1 ∧ dynamicFutureSize s = s * 1 ∧
    2 * configFutureRadius s = (s * 1) * (8 / 10) := by
  refine ⟨?_, ?_, ?_, ?_, ?_, ?_, ?_, ?_, ?_⟩ <;>
    simp only [dynamicPastSize, configPastSize, componentPastSize, componentTodaySize,
      dynamicTodaySize, configTodayRadius, componentFutureSize, dynamicFutureSize,
      configFutureRadius] <;> ring

/-- C4: for every valid reference date, `totalDays ∈ {365, 366}` and
`totalDays = 366` exactly when the date's year is a Gregorian leap year. -/
theorem totalDays_leap_iff (d : JSDate) (hd : d.valid) :
    (totalDays d = 365 ∨ totalDays d = 366) ∧
    (totalDays d = 366 ↔ isLeapYear d.year = true) := by
  rw [totalDays_eq]
  unfold daysInYear
  rcases Bool.eq_false_or_eq_true (isLeapYear d.year) with h | h <;> simp [h]

/-- Witness for C4 at June 6, 2025 (a non-leap year). -/
theorem totalDays_leap_iff_witness :
    JSDate.valid ⟨2025, 156, 43200000⟩ ∧
    ((totalDays ⟨2025, 156, 43200000⟩ = 365 ∨ totalDays ⟨2025, 156, 43200000⟩ = 366) ∧
     (totalDays ⟨2025, 156, 43200000⟩ = 366 ↔ isLeapYear 2025 = true)) :=
  ⟨by decide, totalDays_leap_iff ⟨2025, 156, 43200000⟩ (by decide)⟩

/-- C5 counterexample: one millisecond past midnight on Jan 1, 2025 is not the
first instant of the year, yet `daysPassed` (the code's elapsed-day count) is
still 0 — `differenceInDays` truncates the partial day — so "elapsedDays = 0
iff the reference date is the first instant of its year" fails. -/
theorem elapsedDays_zero_not_first_instant :
    JSDate.valid ⟨2025, 0, 1⟩ ∧ daysPassed ⟨2025, 0, 1⟩ = 0 ∧
    (⟨2025, 0, 1⟩ : JSDate) ≠ startOfYear ⟨2025, 0, 1⟩ := by
  refine ⟨by decide, ?_, by decide⟩
  rw [daysPassed_eq ⟨2025, 0, 1⟩ (by decide)]
  norm_num

/-- C5 (amended): for every valid reference date, 0 ≤ elapsedDays < totalDays,
and elapsedDays = 0 iff the reference date falls on the first calendar day of
its year (any instant of January 1, not only the first instant). -/
theorem daysPassed_bounds (d : JSDate) (hd : d.valid) :
    0 ≤ daysPassed d ∧ daysPassed d < totalDays d ∧
    (daysPassed d = 0 ↔ d.dayOfYear = 0) := by
  rw [daysPassed_eq d hd, totalDays_eq d]
  have h1 := hd.1
  refine ⟨by omega, by omega, by omega⟩

/-- Witness for C5 (amended) at April 10, 2024 (a leap year). -/
theorem daysPassed_bounds_witness :
    JSDate.valid ⟨2024, 100, 5000⟩ ∧
    (0 ≤ daysPassed ⟨2024, 100, 5000⟩ ∧
     daysPassed ⟨2024, 100, 5000⟩ < totalDays ⟨2024, 100, 5000⟩ ∧
     (daysPassed ⟨2024, 100, 5000⟩ = 0 ↔ (⟨2024, 100, 5000⟩ : JSDate).dayOfYear = 0)) :=
  ⟨by decide, daysPassed_bounds ⟨2024, 100, 5000⟩ (by decide)⟩

/-- C8 counterexample: for an unparseable reference date (`none`, a JS
`Invalid Date`) the dynamic image route does not fail fast — it returns an
image response (with an empty dot array), not an error response, so an
(empty, partial) render model is surfaced to the caller. -/
theorem invalidDate_returns_image :
    dynamicRouteResponse none = RouteResponse.imageResponse [] ∧
    (dynamicRouteResponse none).isError = false :=
  ⟨rfl, rfl⟩

/-- C8 (amended): the route never returns an error response — there is no
InvalidDateInput error in the code; an unparseable reference date flows
through as NaN, every loop bound comparison is false, and an image response
with an empty dot array is still produced. -/
theorem dynamicRoute_never_errors (date : Option JSDate) :
    (dynamicRouteResponse date).isError = false := by
  cases date <;> rfl

/-- C9 counterexample: a zero canvas width is not rejected — the geometry is
computed anyway (`ok`, not an InvalidCanvasSize error) and is degenerate:
the card width collapses to 0. -/
theorem zeroWidth_accepted :
    (routeGeometryResponse 0 844 27).isOk = true ∧
    (resolveGeometry 0 844 27).cardW = 0 := by
  refine ⟨rfl, ?_⟩
  rw [resolveGeometry_cardW]
  norm_num

/-- C9 (amended): non-positive canvas sizes are not rejected: the route
always answers `ok` with the computed geometry, and for width ≤ 0 (with
height ≥ 0) that geometry is degenerate — cardW, gap, dotSize and cellW are
all ≤ 0 instead of being rejected. -/
theorem nonpositive_width_degenerate (w h : ℚ) (rows : ℕ) (hw : w ≤ 0) (hh : 0 ≤ h) :
    routeGeometryResponse w h rows = Except.ok (resolveGeometry w h rows) ∧
    (resolveGeometry w h rows).cardW ≤ 0 ∧ (resolveGeometry w h rows).gap ≤ 0 ∧
    (resolveGeometry w h rows).dotSize ≤ 0 ∧ (resolveGeometry w h rows).cellW ≤ 0 := by
  have hcW : (resolveGeometry w h rows).cardW = w * 0.75 := resolveGeometry_cardW w h rows
  have hcW0 : (resolveGeometry w h rows).cardW ≤ 0 := by rw [hcW]; linarith
  have hcH0 : (0 : ℚ) ≤ (resolveGeometry w h rows).cardH := by
    rw [resolveGeometry_cardH]; linarith
  have hmin : min (resolveGeometry w h rows).cardW (resolveGeometry w h rows).cardH =
      (resolveGeometry w h rows).cardW := min_eq_left (by linarith)
  have haW0 : (resolveGeometry w h rows).availableW ≤ 0 := by
    rw [resolveGeometry_availableW, resolveGeometry_padding, hmin]
    linarith
  have hg0 : (resolveGeometry w h rows).gap ≤ 0 := by
    rw [resolveGeometry_gap]
    calc min ((resolveGeometry w h rows).availableW / (15 * 4))
          ((resolveGeometry w h rows).availableH / (rows * 4)) ≤
        (resolveGeometry w h rows).availableW / (15 * 4) := min_le_left _ _
      _ ≤ 0 := by linarith
  refine ⟨rfl, hcW0, hg0, ?_, ?_⟩
  · rw [resolveGeometry_dotSize]; linarith
  · rw [resolveGeometry_cellW]; linarith

/-- Witness for C9 (amended) at width 0, height 844, 27 rows. -/
theorem nonpositive_width_degenerate_witness :
    (0 : ℚ) ≤ 0 ∧ (0 : ℚ) ≤ 844 ∧
    (routeGeometryResponse 0 844 27 = Except.ok (resolveGeometry 0 844 27) ∧
     (resolveGeometry 0 844 27).cardW ≤ 0 ∧ (resolveGeometry 0 844 27).gap ≤ 0 ∧
     (resolveGeometry 0 844 27).dotSize ≤ 0 ∧ (resolveGeometry 0 844 27).cellW ≤ 0) :=
  ⟨by norm_num, by norm_num,
    nonpositive_width_degenerate 0 844 27 (by norm_num) (by norm_num)⟩

lemma dayPos_col_bounds (w i : ℕ) : (dayPos w i).2 ≤ 14 ∧ (dayPos w i).2 ≠ 7 := by
  unfold dayPos
  simp only
  have hp : (w + i) % 14 < 14 := Nat.mod_lt _ (by norm_num)
  by_cases h : (w + i) % 14 < 7
  · rw [if_pos h]; omega
  · rw [if_neg h]; omega

/-- C1: each day cell is placed at row = ⌊(w+i)/14⌋ and, with
p = (w+i) mod 14, at col = p when p < 7 and col = p+1 otherwise; every day
cell's column lies in [0,14] and no day cell in the generated dot list is
ever assigned the gap column 7. -/
theorem layout_no_gap_column (t w : ℕ) (ht : 1 ≤ t) (hw : w ≤ 6) :
    (∀ i, i < t →
      (dayPos w i).1 = (w + i) / 14 ∧
      (dayPos w i).2 = (if (w + i) % 14 < 7 then (w + i) % 14 else (w + i) % 14 + 1) ∧
      (dayPos w i).2 ≤ 14 ∧ (dayPos w i).2 ≠ 7) ∧
    (∀ dp : ℤ, ∀ d ∈ generateDots t dp w,
      (d.type = DotType.cross ∨ d.type = DotType.today ∨ d.type = DotType.dot) →
      d.col ≠ 7 ∧ d.col ≤ 14) := by
  refine ⟨fun i _ => ⟨rfl, rfl, (dayPos_col_bounds w i).1, (dayPos_col_bounds w i).2⟩, ?_⟩
  intro dp d hd hty
  unfold generateDots at hd
  rcases List.mem_append.mp hd with hfront | hc
  · rcases List.mem_append.mp hfront with he | hg
    · unfold emptyCells at he
      obtain ⟨i, hi, hdi⟩ := List.mem_map.mp he
      rw [← hdi] at hty
      simp at hty
    · unfold gapSpacer at hg
      by_cases h7 : 7 ≤ w
      · rw [if_pos h7] at hg
        simp at hg
        rw [hg] at hty
        simp at hty
      · rw [if_neg h7] at hg
        simp at hg
  · unfold dayCells at hc
    obtain ⟨i, hi, hmem⟩ := List.mem_flatMap.mp hc
    rcases List.mem_append.mp hmem with hgap | hcell
    · by_cases h14 : (w + i) % 14 = 7
      · rw [if_pos h14] at hgap
        simp at hgap
        rw [hgap] at hty
        simp at hty
      · rw [if_neg h14] at hgap
        simp at hgap
    · simp at hcell
      rw [hcell]
      exact ⟨(dayPos_col_bounds w i).2, (dayPos_col_bounds w i).1⟩

/-- Witness for C1: a 365-day year starting on a Wednesday (offset 2);
day 12 sits at structural offset 14, i.e. row 1, column 0. -/
theorem layout_no_gap_column_witness :
    (1 : ℕ) ≤ 365 ∧ (2 : ℕ) ≤ 6 ∧
    ((dayPos 2 12).1 = (2 + 12) / 14 ∧
     (dayPos 2 12).2 = (if (2 + 12) % 14 < 7 then (2 + 12) % 14 else (2 + 12) % 14 + 1) ∧
     (dayPos 2 12).2 ≤ 14 ∧ (dayPos 2 12).2 ≠ 7) :=
  ⟨by decide, by decide, (layout_no_gap_column 365 2 (by decide) (by decide)).1 12 (by decide)⟩

/-- C6: with 0 ≤ elapsedDays < totalDays, day index i is classified Past
exactly when i < elapsedDays, Today exactly when i = elapsedDays, Future
otherwise, and exactly one day index is classified Today. -/
theorem classify_partition (t : ℕ) (e : ℤ) (he0 : 0 ≤ e) (het : e < (t : ℤ)) :
    (∀ i : ℕ, i < t →
      ((classify i e = DotType.cross ↔ (i : ℤ) < e) ∧
       (classify i e = DotType.today ↔ (i : ℤ) = e) ∧
       (classify i e = DotType.dot ↔ e < (i : ℤ)))) ∧
    (∃! i : ℕ, i < t ∧ classify i e = DotType.today) := by
  have key : ∀ i : ℕ, (classify i e = DotType.cross ↔ (i : ℤ) < e) ∧
      (classify i e = DotType.today ↔ (i : ℤ) = e) ∧
      (classify i e = DotType.dot ↔ e < (i : ℤ)) := by
    intro i
    unfold classify
    rcases lt_trichotomy ((i : ℤ)) e with h | h | h
    · rw [if_pos h]
      refine ⟨by simp [h], by simp; omega, by simp; omega⟩
    · rw [if_neg (by omega), if_pos h]
      refine ⟨by simp; omega, by simp [h], by simp; omega⟩
    · rw [if_neg (by omega), if_neg (by omega)]
      refine ⟨by simp; omega, by simp; omega, by simp [h]⟩
  refine ⟨fun i _ => key i, e.toNat, ⟨by omega, ?_⟩, ?_⟩
  · exact (key e.toNat).2.1.mpr (by omega)
  · intro y hy
    have := (key y).2.1.mp hy.2
    omega

/-- Witness for C6 with 365 days and 100 elapsed days. -/
theorem classify_partition_witness :
    (0 : ℤ) ≤ 100 ∧ (100 : ℤ) < ((365 : ℕ) : ℤ) ∧
    (∃! i : ℕ, i < 365 ∧ classify i 100 = DotType.today) :=
  ⟨by decide, by decide, (classify_partition 365 100 (by decide) (by decide)).2⟩

/-- C10: the weekday remap keeps the offset within [0,6], so the branch that
would emit a leading gap placeholder (`firstDayOfWeek >= 7`) is unreachable —
the gap spacer list is empty, the generated dots are just the empty
placeholders followed by the day cells, and the first entry of the day-cell
list is day 0 itself (no gap dot precedes it). -/
theorem leadingGap_unreachable (d : JSDate) (t : ℕ) (dp : ℤ) (ht : 1 ≤ t) :
    firstDayOfWeek d ≤ 6 ∧ ¬(7 ≤ firstDayOfWeek d) ∧
    gapSpacer (firstDayOfWeek d) = [] ∧
    generateDots t dp (firstDayOfWeek d) =
      emptyCells (firstDayOfWeek d) ++ dayCells t dp (firstDayOfWeek d) ∧
    (dayCells t dp (firstDayOfWeek d)).head? =
      some ⟨classify 0 dp, 0, firstDayOfWeek d⟩ := by
  have hday : getDay (startOfYear d) ≤ 6 := by
    unfold getDay
    have h1 : 0 ≤ (daysBeforeYear (startOfYear d).year +
        ((startOfYear d).dayOfYear : ℤ) + 6) % 7 := Int.emod_nonneg _ (by norm_num)
    have h2 : (daysBeforeYear (startOfYear d).year +
        ((startOfYear d).dayOfYear : ℤ) + 6) % 7 < 7 := Int.emod_lt_of_pos _ (by norm_num)
    omega
  have hw : firstDayOfWeek d ≤ 6 := by
    unfold firstDayOfWeek remapWeekday
    split
    · omega
    · omega
  have h7 : ¬(7 ≤ firstDayOfWeek d) := by omega
  have hgap : gapSpacer (firstDayOfWeek d) = [] := by
    unfold gapSpacer
    rw [if_neg h7]
  refine ⟨hw, h7, hgap, ?_, ?_⟩
  · unfold generateDots
    rw [hgap, List.append_nil]
  · obtain ⟨t', rfl⟩ : ∃ t', t = t' + 1 := ⟨t - 1, by omega⟩
    unfold dayCells
    rw [List.range_succ_eq_map, List.flatMap_cons,
      if_neg (by omega : ¬(firstDayOfWeek d + 0) % 14 = 7)]
    have h1 : (dayPos (firstDayOfWeek d) 0).1 = 0 := by
      unfold dayPos
      simp only
      omega
    have h2 : (dayPos (firstDayOfWeek d) 0).2 = firstDayOfWeek d := by
      unfold dayPos
      simp only
      rw [if_pos (by omega)]
      omega
    simp [h1, h2]

/-- Witness for C10 at Jan 1, 2025 (a Wednesday: offset 2) with 365 days. -/
theorem leadingGap_unreachable_witness :
    (1 : ℕ) ≤ 365 ∧
    (firstDayOfWeek ⟨2025, 0, 0⟩ ≤ 6 ∧ ¬(7 ≤ firstDayOfWeek ⟨2025, 0, 0⟩) ∧
     gapSpacer (firstDayOfWeek ⟨2025, 0, 0⟩) = [] ∧
     generateDots 365 0 (firstDayOfWeek ⟨2025, 0, 0⟩) =
       emptyCells (firstDayOfWeek ⟨2025, 0, 0⟩) ++
         dayCells 365 0 (firstDayOfWeek ⟨2025, 0, 0⟩) ∧
     (dayCells 365 0 (firstDayOfWeek ⟨2025, 0, 0⟩)).head? =
       some ⟨classify 0 0, 0, firstDayOfWeek ⟨2025, 0, 0⟩⟩) :=
  ⟨by decide, leadingGap_unreachable ⟨2025, 0, 0⟩ 365 0 (by decide)⟩

end DailyDots
